import Mathlib

/-!
Verification of the gcode-utilities repository (toolpaths.py, gcode_utils.py).

Embedding conventions:
* Python floats are modelled as exact rationals (`ℚ`).  Machine-precision
  artefacts are outside the model; quantities the spec calls "approximate"
  are compared with an explicit 3-decimal tolerance.
* `format(v, "0.3f")` is modelled as symmetric rounding to 3 decimal places
  (`round3`); `_to_str` (same body in `ToolPath` and `GcodeUtils`) keeps
  integral values exact and rounds the rest (`toStrVal`).
* A G-code text is modelled as its stream of letter/number tokens (the regex
  `L([+-]?[0-9.]+)` matches exactly these); a regex substitution for one
  letter is a map over the tokens bearing that letter.
* Loops over mutable state are translated to structural recursion or folds
  mirroring the source statement by statement.
-/

namespace GCodeUtilities

/-! ## Numeric formatting core (`_to_str`, toolpaths.py 268-276, gcode_utils.py 216-224) -/

/-- Symmetric (half away from zero) rounding of a rational to an integer. -/
def roundHalfAway (q : ℚ) : ℤ :=
  if 0 ≤ q then ⌊q + 1/2⌋ else -⌊-q + 1/2⌋

/-- Rounding to 3 decimal places, the value denoted by `format(v, "0.3f")`. -/
def round3 (q : ℚ) : ℚ := (roundHalfAway (q * 1000) : ℚ) / 1000

/-- Value denoted by `_to_str(v)`: integral values render exactly
(`str(int(value))`), other values render with 3 decimals. -/
def toStrVal (q : ℚ) : ℚ := if q.den = 1 then q else round3 q

/-- A rational representable with at most 3 decimal places. -/
def Dec3 (q : ℚ) : Prop := (q * 1000).den = 1

instance (q : ℚ) : Decidable (Dec3 q) := by unfold Dec3; infer_instance

/-! ## `ToolPath.ParamCheck` (toolpaths.py 53-84)

The check runs in source order: the `z_top < z_bottom` guard raises first;
the retract-height and stepdown clamps mutate the parameters and print a
warning (modelled as silent clamping, the diagnostic being I/O); the final
guard raises when `tool_dia < stepover`. -/

/-- `RETRACT_MIN = 0.5` (toolpaths.py line 47). -/
def RETRACT_MIN : ℚ := 1/2

structure TPParams where
  z_top : ℚ
  z_bottom : ℚ
  z_retract_dist : ℚ
  stepdown : ℚ
  stepover : ℚ
  tool_dia : ℚ
deriving DecidableEq, Repr

/-- `ToolPath.ParamCheck` (toolpaths.py 53-84).  `Except.error` models a
raised `ValueError`; `Except.ok` returns the (possibly clamped) parameters. -/
def ParamCheck (p : TPParams) : Except String TPParams :=
  if p.z_top < p.z_bottom then
    .error "Top height less than bottom height"
  else
    let p1 := if p.z_retract_dist < RETRACT_MIN then
        { p with z_retract_dist := RETRACT_MIN } else p
    let p2 := if p1.stepdown > p1.z_top - p1.z_bottom then
        { p1 with stepdown := p1.z_top - p1.z_bottom } else p1
    if p2.tool_dia < p2.stepover then
      .error "Tool diameter smaller than stepover"
    else
      .ok p2

/-! ## Cylinder radii (toolpaths.py 883-907) -/

/-- Helix radius (toolpaths.py 884-888): start from the nominal radius,
subtract `tool_rad + stepover` for a bore, add it otherwise.
`tool_rad = tool_dia / 2` (toolpaths.py 219-224). -/
def rHelix (radius tool_dia stepover : ℚ) (bore : Bool) : ℚ :=
  if bore then radius - (tool_dia / 2 + stepover)
  else radius + (tool_dia / 2 + stepover)

/-- Finishing-cut radius (toolpaths.py 899-903): nominal radius offset by the
tool radius only, no stepover term. -/
def rFinish (radius tool_dia : ℚ) (bore : Bool) : ℚ :=
  if bore then radius - tool_dia / 2
  else radius + tool_dia / 2

/-- Helix point abscissa, `x_helix = r_helix * np.cos(angles) + self.x`
(toolpaths.py 892). -/
noncomputable def helixX (r cx : ℚ) (θ : ℝ) : ℝ := (r : ℝ) * Real.cos θ + (cx : ℝ)

/-- Helix point ordinate, `y_helix = r_helix * np.sin(angles) + self.y`
(toolpaths.py 893). -/
noncomputable def helixY (r cy : ℚ) (θ : ℝ) : ℝ := (r : ℝ) * Real.sin θ + (cy : ℝ)

/-! ## G-code token streams (`GcodeUtils`, gcode_utils.py)

A program is its stream of `LETTER[+-]?[0-9.]+` tokens in text order.  A
regex substitution `re.sub(f"L{num}", f, gcode)` maps `f` over the tokens
whose letter is `L` and leaves every other token alone. -/

inductive Axis where
  | X | Y | Z | I | J | F
deriving DecidableEq, Repr

structure Tok where
  letter : Axis
  val : ℚ
deriving DecidableEq, Repr

abbrev GProg := List Tok

/-- Values of the tokens bearing one letter, in text order (the stream seen
by `re.finditer(f"L{num}", gcode)`). -/
def axisVals (a : Axis) (g : GProg) : List ℚ :=
  (g.filter (fun t => t.letter = a)).map Tok.val

/-- Apply `f` to the numeric value of every token with letter `a`
(the effect of one `re.sub(f"L{num}", repl, gcode)` call). -/
def subAxis (a : Axis) (f : ℚ → ℚ) (g : GProg) : GProg :=
  g.map (fun t => if t.letter = a then { t with val := f t.val } else t)

/-- `GcodeUtils.Translate` (gcode_utils.py 276-316): per-axis regex
substitution adding the delta, reformatted through `_to_str`. -/
def Translate (dx dy dz : ℚ) (g : GProg) : GProg :=
  subAxis .Z (fun v => toStrVal (v + dz))
    (subAxis .Y (fun v => toStrVal (v + dy))
      (subAxis .X (fun v => toStrVal (v + dx)) g))

/-- `GcodeUtils.MirrorY` (gcode_utils.py 318-339): negate every X and every
I token. -/
def MirrorY (g : GProg) : GProg :=
  subAxis .I (fun v => toStrVal (v * -1)) (subAxis .X (fun v => toStrVal (v * -1)) g)

/-- `GcodeUtils.MirrorX` (gcode_utils.py 341-362): negate every Y and every
J token. -/
def MirrorX (g : GProg) : GProg :=
  subAxis .J (fun v => toStrVal (v * -1)) (subAxis .Y (fun v => toStrVal (v * -1)) g)

/-- A running extent bound: `np.inf`, `-np.inf`, or a finite value. -/
inductive EVal where
  | pinf | ninf | num (q : ℚ)
deriving DecidableEq, Repr

/-- `val < bound` with the source's infinity sentinels. -/
def eLT (v : ℚ) : EVal → Bool
  | .pinf => true
  | .ninf => false
  | .num m => v < m

/-- `val > bound` with the source's infinity sentinels. -/
def eGT (v : ℚ) : EVal → Bool
  | .pinf => false
  | .ninf => true
  | .num m => v > m

/-- One iteration of the extents scan (gcode_utils.py 381-386): note the
`elif` — when the minimum updates, the maximum is not examined. -/
def extStep (p : EVal × EVal) (v : ℚ) : EVal × EVal :=
  if eLT v p.1 then (.num v, p.2)
  else if eGT v p.2 then (p.1, .num v)
  else p

/-- Scan of one axis starting from `(inf, -inf)` (gcode_utils.py 379-400). -/
def extScan (vs : List ℚ) : EVal × EVal :=
  vs.foldl extStep (.pinf, .ninf)

/-- `ext[np.isinf(ext)] = 0` (gcode_utils.py 406): surviving sentinels are
replaced by 0. -/
def eClean : EVal → ℚ
  | .num q => q
  | _ => 0

structure Extents6 where
  x_min : ℚ
  y_min : ℚ
  z_min : ℚ
  x_max : ℚ
  y_max : ℚ
  z_max : ℚ
deriving DecidableEq, Repr

/-- `GcodeUtils.Extents` (gcode_utils.py 364-408). -/
def Extents (g : GProg) : Extents6 :=
  ⟨eClean (extScan (axisVals .X g)).1, eClean (extScan (axisVals .Y g)).1,
    eClean (extScan (axisVals .Z g)).1, eClean (extScan (axisVals .X g)).2,
    eClean (extScan (axisVals .Y g)).2, eClean (extScan (axisVals .Z g)).2⟩

/-- `GcodeUtils.Center` (gcode_utils.py 410-430). -/
def Center (g : GProg) : ℚ × ℚ × ℚ :=
  (((Extents g).x_min + (Extents g).x_max) / 2,
    ((Extents g).y_min + (Extents g).y_max) / 2,
    ((Extents g).z_min + (Extents g).z_max) / 2)

/-- The token-scaling stage of `GcodeUtils.Scale` (gcode_utils.py 509-511). -/
def scaleTokens (factor : ℚ) (g : GProg) : GProg :=
  subAxis .Z (fun v => toStrVal (v * factor))
    (subAxis .Y (fun v => toStrVal (v * factor))
      (subAxis .X (fun v => toStrVal (v * factor)) g))

/-- `GcodeUtils.Scale` (gcode_utils.py 477-516): capture the center, scale
every X/Y/Z token, recompute the center, translate back by the difference. -/
def Scale (factor : ℚ) (g : GProg) : GProg :=
  Translate ((Center g).1 - (Center (scaleTokens factor g)).1)
    ((Center g).2.1 - (Center (scaleTokens factor g)).2.1)
    ((Center g).2.2 - (Center (scaleTokens factor g)).2.2)
    (scaleTokens factor g)

/-- The two-line program `G0 X5 / G0 X3` as a token stream. -/
def scaleDriftProg : GProg := [⟨.X, 5⟩, ⟨.X, 3⟩]

/-- A token stream whose values all sit on the 3-decimal grid. -/
def Norm3 (g : GProg) : Prop := ∀ t ∈ g, Dec3 t.val

/-- Plain (unrounded) negation of the Y and J tokens: what "a single MirrorX
negates every Y token and every J token" denotes. -/
def negYJ (g : GProg) : GProg :=
  g.map (fun t => if t.letter = .Y ∨ t.letter = .J then { t with val := -t.val } else t)

/-- Plain (unrounded) negation of the X and I tokens. -/
def negXI (g : GProg) : GProg :=
  g.map (fun t => if t.letter = .X ∨ t.letter = .I then { t with val := -t.val } else t)

/-- Formatting normalization of the Y and J tokens (the tokens a `MirrorX`
round trip rewrites). -/
def normYJ (g : GProg) : GProg :=
  g.map (fun t => if t.letter = .Y ∨ t.letter = .J then
    { t with val := toStrVal t.val } else t)

/-- Formatting normalization of the X and I tokens (the tokens a `MirrorY`
round trip rewrites). -/
def normXI (g : GProg) : GProg :=
  g.map (fun t => if t.letter = .X ∨ t.letter = .I then
    { t with val := toStrVal t.val } else t)

/-! ## Rectangle toolpath (`ToolPathRectangle.GCode`, toolpaths.py 565-740)

Modelled for `tool_angle = 0` (the default, and the value in every claim
about this generator): the cutter-angle offset `angle_xy_offset` is then
`0` and each pass copies the previous pass's XY corners unchanged
(toolpaths.py 589-596, 628-634). -/

/-- One step of the Z while-loop (toolpaths.py 622-625): step down by `s`,
clamp at `zb`. -/
def stepClamp (zb s z : ℚ) : ℚ := if z - s < zb then zb else z - s

/-- The Z values visited by `while z > self.z_bottom` (toolpaths.py 620-626).
Runs only for positive stepdown (otherwise the source loop diverges). -/
def rectZLoop (zb s z : ℚ) : List ℚ :=
  if h : 0 < s ∧ zb < z then stepClamp zb s z :: rectZLoop zb s (stepClamp zb s z)
  else []
termination_by (⌈(z - zb) / s⌉).toNat
decreasing_by
  rcases h with ⟨hs, hz⟩
  unfold stepClamp
  split
  · have h1 : (0 : ℚ) < (z - zb) / s := div_pos (by linarith) hs
    have h2 : (0 : ℤ) < ⌈(z - zb) / s⌉ := Int.ceil_pos.mpr h1
    have h3 : ⌈(zb - zb) / s⌉ = 0 := by
      rw [sub_self, zero_div, Int.ceil_zero]
    omega
  · have h1 : (0 : ℚ) < (z - zb) / s := div_pos (by linarith) hs
    have h2 : (0 : ℤ) < ⌈(z - zb) / s⌉ := Int.ceil_pos.mpr h1
    have h3 : (z - s - zb) / s = (z - zb) / s - 1 := by
      field_simp
      ring
    have h4 : ⌈(z - s - zb) / s⌉ = ⌈(z - zb) / s⌉ - 1 := by
      rw [h3, show ((z - zb) / s - 1 : ℚ) = (z - zb) / s - (1 : ℤ) by push_cast; ring,
        Int.ceil_sub_int]
    omega

/-- `n_passes = int(np.ceil((z_top - z_bottom) / stepdown)) + 1`
(toolpaths.py 578-582). -/
def rectNPasses (zt zb s : ℚ) : ℤ := ⌈(zt - zb) / s⌉ + 1

/-- Tool-radius offset with the Pocket sign flip (toolpaths.py 585-587). -/
def rectRt (tool_dia : ℚ) (pocket : Bool) : ℚ :=
  if pocket then -(tool_dia / 2) else tool_dia / 2

/-- The 5 corner rows of one pass: lower-left, lower-right, upper-right,
upper-left, back to lower-left (toolpaths.py 612-616, 636-660). -/
def corners5 (xmin xmax ymin ymax z : ℚ) : List (ℚ × ℚ × ℚ) :=
  [(xmin, ymin, z), (xmax, ymin, z), (xmax, ymax, z), (xmin, ymax, z), (xmin, ymin, z)]

/-- The rows of `positions` actually written: the top outline at `z_top`
plus one 5-corner group per while-loop Z value, with
`x_min = -rt`, `x_max = width + rt`, `y_min = -rt`, `y_max = height + rt`
(toolpaths.py 602-605). -/
def rectFilled (w h zt zb s rt : ℚ) : List (ℚ × ℚ × ℚ) :=
  corners5 (-rt) (w + rt) (-rt) (h + rt) zt ++
    (rectZLoop zb s zt).flatMap (corners5 (-rt) (w + rt) (-rt) (h + rt))

/-- `positions = np.zeros(((n_passes + 1) * 5, 3))` (toolpaths.py 608-611):
rows never written stay `(0, 0, 0)`. -/
def rectPositions (x y w h zt zb s td : ℚ) (pocket : Bool) : List (ℚ × ℚ × ℚ) :=
  ((rectFilled w h zt zb s (rectRt td pocket) ++
      List.replicate (((rectNPasses zt zb s + 1) * 5).toNat -
        (rectFilled w h zt zb s (rectRt td pocket)).length) (0, 0, 0)).map
    (fun (p : ℚ × ℚ × ℚ) => (p.1 + x, p.2.1 + y, p.2.2)))

/-- The rows emitted as `G1 X.. Y.. Z..` lines: all of `positions` after
`np.delete(positions, [0,1,2,3,4], axis=0)` (toolpaths.py 720-731). -/
def rectEmitted (x y w h zt zb s td : ℚ) (pocket : Bool) : List (ℚ × ℚ × ℚ) :=
  (rectPositions x y w h zt zb s td pocket).drop 5

/-- Tokens of one emitted cutting line `G1 X{x} Y{y} Z{z}` with `_to_str`
formatting (toolpaths.py 727-731). -/
def rectLineTokens (p : ℚ × ℚ × ℚ) : List Tok :=
  [⟨.X, toStrVal p.1⟩, ⟨.Y, toStrVal p.2.1⟩, ⟨.Z, toStrVal p.2.2⟩]

/-- The cutting-move token stream of the generated program, with the rows
sitting at the XY origin dropped (the claim's "ignoring retract/home moves
at the origin"). -/
def rectCutProg (x y w h zt zb s td : ℚ) (pocket : Bool) : GProg :=
  ((rectEmitted x y w h zt zb s td pocket).filter
    (fun p => ¬(p.1 = 0 ∧ p.2.1 = 0))).flatMap rectLineTokens

/-- The end-to-end scenario of the spec: `x=0, y=0, width=40, height=5.5,
z_top=0, z_bottom=-15, stepdown=0.75, tool_dia=3.175, operation=Pocket`. -/
def rectScenarioProg : GProg :=
  rectCutProg 0 0 40 (11/2) 0 (-15) (3/4) (127/40) true

/-! ## Z blocks and multipass (`zblocks`/`zmultipass`, gcode_utils.py 26-183, 571-690)

A source line is modelled by its coordinate-token list.  Comment text and
`G`/`M` words carry no `X`/`Y`/`Z`/`I`/`J`/`F` tokens and are irrelevant to
the block structure; the block-replication machinery only reads and rewrites
tokens. -/

abbrev Line := List Tok

/-- First token of letter `a` on a line (`re.search(f"L{num}", line)`). -/
def lineVal (a : Axis) (l : Line) : Option ℚ :=
  (l.find? (fun t => t.letter = a)).map Tok.val

/-- `np.arange(start, stop, -step)` for positive `step`: `start`,
`start - step`, ... while strictly above the exclusive `stop`. -/
def arangeDown (start stop step : ℚ) : List ℚ :=
  if h : 0 < step ∧ stop < start then start :: arangeDown (start - step) stop step
  else []
termination_by (⌈(start - stop) / step⌉).toNat
decreasing_by
  rcases h with ⟨hs, hlt⟩
  have h1 : (0 : ℚ) < (start - stop) / step := div_pos (by linarith) hs
  have h2 : (0 : ℤ) < ⌈(start - stop) / step⌉ := Int.ceil_pos.mpr h1
  have h3 : (start - step - stop) / step = (start - stop) / step - 1 := by
    field_simp
    ring
  have h4 : ⌈(start - step - stop) / step⌉ = ⌈(start - stop) / step⌉ - 1 := by
    rw [h3, show ((start - stop) / step - 1 : ℚ) = (start - stop) / step - (1 : ℤ) by
      push_cast; ring, Int.ceil_sub_int]
  omega

/-- The multipass heights (gcode_utils.py 646-649):
`np.arange(z_top - stepdown, z_min, -stepdown)` with `z_min` appended. -/
def zheights (z_top stepdown z_min : ℚ) : List ℚ :=
  arangeDown (z_top - stepdown) z_min stepdown ++ [z_min]

/-- A `ZBlock`: its lines plus the cached X/Y/Z position preceding it
(gcode_utils.py 26-51). -/
structure ZBlockM where
  lines : List Line
  x_start : Option ℚ
  y_start : Option ℚ
  z_start : Option ℚ
deriving DecidableEq, Repr

/-- `ZBlock.z`: the first Z token of the block's first line
(gcode_utils.py 48-51; a block with no lines raises IndexError there,
modelled as `none`). -/
def blockZ (b : ZBlockM) : Option ℚ := b.lines.head?.bind (lineVal .Z)

/-- Position tracking inside the `zblocks` scan (gcode_utils.py 605-614):
a line bearing the axis updates the running value. -/
def track (a : Axis) (l : Line) (cur : Option ℚ) : Option ℚ :=
  match lineVal a l with
  | some v => some v
  | none => cur

/-- The `zblocks` loop (gcode_utils.py 589-619).  A line bearing a Z token
closes the current block (recording the pre-block position) and starts a new
one; the loop ends without appending the block in progress, so the block
opened by the last Z-bearing line is never returned. -/
def zblocksGo (ls : List Line) (block : List Line) (x y z xp yp zp : Option ℚ)
    (acc : List ZBlockM) : List ZBlockM :=
  match ls with
  | [] => acc
  | l :: rest =>
    if (lineVal .Z l).isSome then
      zblocksGo rest [l] (track .X l x) (track .Y l y) (track .Z l z) x y z
        (acc ++ [⟨block, xp, yp, zp⟩])
    else
      zblocksGo rest (block ++ [l]) (track .X l x) (track .Y l y) (track .Z l z)
        xp yp zp acc

/-- `GcodeUtils.zblocks` (gcode_utils.py 571-619). -/
def zblocks (prog : List Line) : List ZBlockM :=
  zblocksGo prog [] none none none none none none []

/-- `GcodeUtils.ZLevels` (gcode_utils.py 554-569): every Z token value in
text order. -/
def ZLevels (prog : List Line) : List ℚ :=
  prog.flatMap (fun l => (l.filter (fun t => t.letter = .Z)).map Tok.val)

/-- The `ZBlock.z` setter (gcode_utils.py 66-73): rewrite every Z token of
the block's first line. -/
def setLineZ (z : ℚ) (l : Line) : Line :=
  l.map (fun t => if t.letter = .Z then { t with val := z } else t)

/-- Rewrite the Z of a block's first line only. -/
def setBlockZ (z : ℚ) (ls : List Line) : List Line :=
  match ls with
  | [] => []
  | l :: rest => setLineZ z l :: rest

/-- One replicated copy of the minimum-Z block at index `i`, height `z`
(gcode_utils.py 666-684): a positioning return-move `G0 X{xstart:0.3f}
Y{ystart:0.3f}` for every copy but the first, the block with its first
line's Z rewritten, and a lift `G0 Z{zstart:0.3f}` for every copy but the
last.  (Comment header lines carry no tokens.  A `None` start position makes
the source's format call raise; the claims never reach that case and the
model defaults it to 0.) -/
def multipassCopy (b : ZBlockM) (n : ℕ) (i : ℕ) (z : ℚ) : List Line :=
  (if 0 < i then
    [[⟨.X, round3 (b.x_start.getD 0)⟩, ⟨.Y, round3 (b.y_start.getD 0)⟩]] else []) ++
  setBlockZ z b.lines ++
  (if i < n - 1 then [[⟨.Z, round3 (b.z_start.getD 0)⟩]] else [])

/-- All replicated copies of the minimum-Z block, one per height
(gcode_utils.py 662-684). -/
def multipassCopies (heights : List ℚ) (b : ZBlockM) : List Line :=
  heights.enum.flatMap (fun iz => multipassCopy b heights.length iz.1 iz.2)

/-- `GcodeUtils.zmultipass` (gcode_utils.py 621-690).  `none` models the
`np.min` failure on a program with no Z token; negative stepdown is negated
(643-644; the `stepdown == 0` guard raises in the source and is outside
this model, which is only used with positive stepdown).  Blocks whose `z`
equals the global minimum are replicated once per height; every other
returned block passes through. -/
def zmultipass (z_top stepdown : ℚ) (prog : List Line) : Option (List Line) :=
  match (ZLevels prog).min? with
  | none => none
  | some zmin =>
    some ((zblocks prog).flatMap (fun b =>
      if blockZ b = some zmin then
        multipassCopies (zheights z_top |stepdown| zmin) b
      else b.lines))

/-- The C3 failing program: `G0 X1 Y1` then `G1 Z-2.0 X5` — its only
Z-bearing line is its last one. -/
def zmpProg : List Line := [[⟨.X, 1⟩, ⟨.Y, 1⟩], [⟨.Z, -2⟩, ⟨.X, 5⟩]]

/-! ## Cylinder passes (`ToolPathCylinder.GCode`, toolpaths.py 848-1011) -/

/-- Pass count (toolpaths.py 869-876): `ceil`, plus one extra pass when the
ratio is not an exact integer and `stepover == 0`. -/
def cylNPasses (zt zb s so : ℚ) : ℤ :=
  if (⌈(zt - zb) / s⌉ : ℚ) ≠ (zt - zb) / s ∧ so = 0 then ⌈(zt - zb) / s⌉ + 1
  else ⌈(zt - zb) / s⌉

/-- `np.linspace(z_top, z_top - stepdown, segments + 1)` entry `j`
(toolpaths.py 894-896). -/
def zlin (zt s : ℚ) (m j : ℕ) : ℚ := zt - s * j / m

/-- The `z_helix` entry `j` before pass `i`: the linspace value stepped down
`i` times with the element-wise clamp `z_helix[z_helix < z_bottom] =
z_bottom` applied after each pass (toolpaths.py 993-997). -/
def cylZ (zt zb s : ℚ) (m : ℕ) : ℕ → ℕ → ℚ
  | 0, j => zlin zt s m j
  | i + 1, j =>
    if cylZ zt zb s m i j - s < zb then zb else cylZ zt zb s m i j - s

/-- The Z coordinates emitted during pass `i`: helix indices `0 .. m-1`
(`range(0, len(x_helix) - 1)`, toolpaths.py 964), plus — when a finishing
cut is present (`stepover > 0`) — the move to the last helix point, index
`m` (toolpaths.py 971-977). -/
def cylPassZs (zt zb s so : ℚ) (m i : ℕ) : List ℚ :=
  (List.range m).map (cylZ zt zb s m i) ++
    (if 0 < so then [cylZ zt zb s m i m] else [])

/-- Every Z coordinate the cylinder generator emits below the header: the
passes and the final closing point `z_helix[-1]` (toolpaths.py 999-1002). -/
def cylEmittedZs (zt zb s so : ℚ) (m : ℕ) : List ℚ :=
  (List.range (cylNPasses zt zb s so).toNat).flatMap (cylPassZs zt zb s so m) ++
    [cylZ zt zb s m (cylNPasses zt zb s so).toNat m]


/-! ## 2D rotation (`GcodeUtils.Rotate`, gcode_utils.py 727-801)

`Rotate` works line by line through the regex
`^(?P<lead>\\s*[GMgm][01][^XYZE]*)(X(?P<x>num))?(\\s*Y(?P<y>num))?(\\s*Z(?P<z>num))?(\\s*F(?P<f>num))?`.
A line is modelled as a flag `gm01` (the line begins with `[GMgm][01]`, so
the `lead` group can match) and its word list: coordinate words `x/y/z/f`
and `w` for any other word free of the characters X, Y, Z, E (such words are
absorbed by `[^XYZE]*`).  The lead group extends to the first X/Y/Z word;
the four optional groups then consume, in this fixed order, an immediately
following X, Y, Z, F word; whatever remains of the line is not part of the
match and is dropped when the line is rewritten.  The source precomputes
`cos_t`/`sin_t` as floats (gcode_utils.py 744-747), modelled as rational
parameters `c`/`s`. -/

inductive RTok where
  | x (v : ℚ)
  | y (v : ℚ)
  | z (v : ℚ)
  | f (v : ℚ)
  | w (v : ℚ)
deriving DecidableEq, Repr

structure RLine where
  gm01 : Bool
  toks : List RTok
deriving DecidableEq, Repr

/-- A word containing one of the characters X, Y, Z (stops the `[^XYZE]*`
lead). -/
def isXYZ : RTok → Bool
  | .x _ => true
  | .y _ => true
  | .z _ => true
  | _ => false

/-- The words the `lead` group absorbs. -/
def leadToks (ts : List RTok) : List RTok := ts.takeWhile (fun t => !isXYZ t)

/-- The words left for the optional X/Y/Z/F groups. -/
def tailToks (ts : List RTok) : List RTok := ts.dropWhile (fun t => !isXYZ t)

def parseX : List RTok → Option ℚ × List RTok
  | .x v :: r => (some v, r)
  | ts => (none, ts)

def parseY : List RTok → Option ℚ × List RTok
  | .y v :: r => (some v, r)
  | ts => (none, ts)

def parseZ : List RTok → Option ℚ × List RTok
  | .z v :: r => (some v, r)
  | ts => (none, ts)

def parseF : List RTok → Option ℚ × List RTok
  | .f v :: r => (some v, r)
  | ts => (none, ts)

structure RParse where
  px : Option ℚ
  py : Option ℚ
  pz : Option ℚ
  pf : Option ℚ
deriving DecidableEq, Repr

/-- The sequential optional captures `(X..)?(Y..)?(Z..)?(F..)?` applied
after the lead; the second component is the unmatched remainder of the
line. -/
def parseXYZF (ts : List RTok) : RParse × List RTok :=
  match parseX ts with
  | (ox, ts1) =>
    match parseY ts1 with
    | (oy, ts2) =>
      match parseZ ts2 with
      | (oz, ts3) =>
        match parseF ts3 with
        | (og, ts4) => (⟨ox, oy, oz, og⟩, ts4)

/-- `rotate_xy` (gcode_utils.py 763-769): translate to the center, rotate
by the matrix `[[c, -s], [s, c]]`, translate back. -/
def rotXY (c s cx cy x0 y0 : ℚ) : ℚ × ℚ :=
  ((x0 - cx) * c - (y0 - cy) * s + cx, (x0 - cx) * s + (y0 - cy) * c + cy)

/-- Emit an optional token. -/
def optTok (mk : ℚ → RTok) : Option ℚ → List RTok
  | some v => [mk v]
  | none => []

/-- One line of the `Rotate` loop body (gcode_utils.py 771-801): a matching
line with an X or Y capture is rebuilt from lead, rotated-and-reformatted
X/Y (a missing axis contributes 0 to the rotation but is not emitted), and
the raw Z and F captures; everything else is returned unchanged.  The
remainder after the matched prefix is dropped. -/
def rotLine (c s cx cy : ℚ) (l : RLine) : RLine :=
  match parseXYZF (tailToks l.toks) with
  | (p, _) =>
    if l.gm01 ∧ (p.px.isSome ∨ p.py.isSome) then
      ⟨l.gm01,
        leadToks l.toks ++
        optTok RTok.x (p.px.map (fun _ =>
          toStrVal (rotXY c s cx cy (p.px.getD 0) (p.py.getD 0)).1)) ++
        optTok RTok.y (p.py.map (fun _ =>
          toStrVal (rotXY c s cx cy (p.px.getD 0) (p.py.getD 0)).2)) ++
        optTok RTok.z p.pz ++ optTok RTok.f p.pf⟩
    else l

/-- Value of a word. -/
def rval : RTok → ℚ
  | .x v => v
  | .y v => v
  | .z v => v
  | .f v => v
  | .w v => v

/-- The coordinate tokens of a rotate-model program, as the token stream the
regex scans of `Extents`/`Center` see (`w` words carry no coordinate
letter). -/
def rTok2Tok : RTok → Option Tok
  | .x v => some ⟨.X, v⟩
  | .y v => some ⟨.Y, v⟩
  | .z v => some ⟨.Z, v⟩
  | .f v => some ⟨.F, v⟩
  | .w _ => none

def progTokens (prog : List RLine) : GProg :=
  prog.flatMap (fun l => l.toks.filterMap rTok2Tok)

/-- `self.Center()` of the serialized program (gcode_utils.py 750). -/
def rCenter (prog : List RLine) : ℚ × ℚ × ℚ := Center (progTokens prog)

/-- `GcodeUtils.Rotate` (gcode_utils.py 727-801) with precomputed
`cos_t = c`, `sin_t = s`: a missing center argument defaults to the
corresponding component of `self.Center()`. -/
def Rotate (c s : ℚ) (xc yc : Option ℚ) (prog : List RLine) : List RLine :=
  prog.map (rotLine c s (xc.getD (rCenter prog).1) (yc.getD (rCenter prog).2.1))

/-- First X word of a line, by value (order-insensitive). -/
def findXv (ts : List RTok) : Option ℚ :=
  (ts.find? (fun t => match t with | .x _ => true | _ => false)).map rval

/-- First Y word of a line, by value (order-insensitive). -/
def findYv (ts : List RTok) : Option ℚ :=
  (ts.find? (fun t => match t with | .y _ => true | _ => false)).map rval

/-- First Z word of a line, by value (order-insensitive). -/
def findZv (ts : List RTok) : Option ℚ :=
  (ts.find? (fun t => match t with | .z _ => true | _ => false)).map rval

/-- First F word of a line, by value (order-insensitive). -/
def findFv (ts : List RTok) : Option ℚ :=
  (ts.find? (fun t => match t with | .f _ => true | _ => false)).map rval

/-- The spec's reading of Rotate2D (spec.md §4.6), defined independently of
the regex parse: a G0/G1 line carrying an X and/or Y token is rewritten by
the standard rotation about the center, a missing axis enters the math as 0
but is not re-emitted, and the line's Z and F tokens pass through
unchanged; every other line is untouched. -/
def rotLineSpec (c s cx cy : ℚ) (l : RLine) : RLine :=
  if l.gm01 ∧ ((findXv l.toks).isSome ∨ (findYv l.toks).isSome) then
    ⟨l.gm01,
      optTok RTok.x ((findXv l.toks).map (fun _ =>
        toStrVal (rotXY c s cx cy ((findXv l.toks).getD 0) ((findYv l.toks).getD 0)).1)) ++
      optTok RTok.y ((findYv l.toks).map (fun _ =>
        toStrVal (rotXY c s cx cy ((findXv l.toks).getD 0) ((findYv l.toks).getD 0)).2)) ++
      optTok RTok.z (findZv l.toks) ++ optTok RTok.f (findFv l.toks)⟩
  else l

/-- A line whose words are (optionally) X, Y, Z, F, in that canonical
order, with nothing else. -/
def canonToks (ox oy oz og : Option ℚ) : List RTok :=
  optTok RTok.x ox ++ optTok RTok.y oy ++ optTok RTok.z oz ++ optTok RTok.f og

def Canonical (l : RLine) : Prop :=
  ∃ ox oy oz og, l.toks = canonToks ox oy oz og

/-- The C9 failing line `G1 X1 F100 Z-2`: its F word precedes its Z word. -/
def rotCexLine : RLine := ⟨true, [.x 1, .f 100, .z (-2)]⟩

/-- A two-line program whose computed default center differs from its true
bounding-box center. -/
def rotCexProg : List RLine := [⟨true, [.x 5, .y 2]⟩, ⟨true, [.x 3, .y 1]⟩]

/-- The true bounding-box center abscissa, written from the spec's words:
midpoint of the smallest and largest X coordinate. -/
def bboxCenterX (prog : List RLine) : ℚ :=
  ((axisVals .X (progTokens prog)).min?.getD 0 +
    (axisVals .X (progTokens prog)).max?.getD 0) / 2

/-! # Theorems -/

/-! ## Unfolding lemmas for the recursive loops -/

theorem arangeDown_pos (start stop step : ℚ) (h1 : 0 < step) (h2 : stop < start) :
    arangeDown start stop step = start :: arangeDown (start - step) stop step := by
  rw [arangeDown, dif_pos (⟨h1, h2⟩ : 0 < step ∧ stop < start)]

theorem arangeDown_stop (start stop step : ℚ) (h : ¬(0 < step ∧ stop < start)) :
    arangeDown start stop step = [] := by
  rw [arangeDown, dif_neg h]

theorem rectZLoop_pos (zb s z : ℚ) (h1 : 0 < s) (h2 : zb < z) :
    rectZLoop zb s z = stepClamp zb s z :: rectZLoop zb s (stepClamp zb s z) := by
  rw [rectZLoop, dif_pos (⟨h1, h2⟩ : 0 < s ∧ zb < z)]

theorem rectZLoop_stop (zb s z : ℚ) (h : ¬(0 < s ∧ zb < z)) :
    rectZLoop zb s z = [] := by
  rw [rectZLoop, dif_neg h]

/-! ## Formatting lemmas -/

theorem roundHalfAway_intCast (n : ℤ) : roundHalfAway (n : ℚ) = n := by
  unfold roundHalfAway
  split
  · rw [add_comm, Int.floor_add_int]
    norm_num
  · rw [show -(n : ℚ) + 1/2 = 1/2 + (-n : ℤ) by push_cast; ring,
      Int.floor_add_int]
    norm_num

theorem round3_dec3 (q : ℚ) (h : Dec3 q) : round3 q = q := by
  unfold Dec3 at h
  have hq : ((q * 1000).num : ℚ) = q * 1000 := by
    conv_rhs => rw [← Rat.num_div_den (q * 1000)]
    rw [h]
    norm_num
  unfold round3
  rw [← hq, roundHalfAway_intCast, hq]
  ring

theorem toStrVal_dec3 (q : ℚ) (h : Dec3 q) : toStrVal q = q := by
  unfold toStrVal
  split
  · rfl
  · exact round3_dec3 q h

theorem dec3_neg (q : ℚ) (h : Dec3 q) : Dec3 (-q) := by
  unfold Dec3 at h ⊢
  rw [show -q * 1000 = -(q * 1000) by ring, Rat.neg_den]
  exact h

theorem toStrVal_negOne_mul (v : ℚ) (h : Dec3 v) : toStrVal (v * -1) = -v := by
  rw [mul_neg_one]
  exact toStrVal_dec3 _ (dec3_neg v h)

theorem toStrVal_neg (v : ℚ) (h : Dec3 v) : toStrVal (-v) = -v :=
  toStrVal_dec3 _ (dec3_neg v h)

theorem roundHalfAway_neg (q : ℚ) : roundHalfAway (-q) = -roundHalfAway q := by
  unfold roundHalfAway
  rcases lt_trichotomy q 0 with h | h | h
  · rw [if_pos (by linarith : (0 : ℚ) ≤ -q), if_neg (by linarith : ¬(0 : ℚ) ≤ q),
      neg_neg]
  · subst h
    norm_num
  · rw [if_neg (by linarith : ¬(0 : ℚ) ≤ -q), if_pos (by linarith : (0 : ℚ) ≤ q),
      neg_neg]

theorem round3_neg (q : ℚ) : round3 (-q) = -round3 q := by
  unfold round3
  rw [show -q * 1000 = -(q * 1000) by ring, roundHalfAway_neg]
  push_cast
  ring

theorem toStrVal_neg_eq (q : ℚ) : toStrVal (-q) = -toStrVal q := by
  unfold toStrVal
  rw [Rat.neg_den]
  split
  · rfl
  · exact round3_neg q

theorem dec3_round3 (q : ℚ) : Dec3 (round3 q) := by
  unfold Dec3 round3
  rw [div_mul_cancel₀ _ (by norm_num : (1000 : ℚ) ≠ 0)]
  exact Rat.den_intCast _

theorem dec3_of_den_one (q : ℚ) (h : q.den = 1) : Dec3 q := by
  obtain ⟨n, rfl⟩ : ∃ n : ℤ, q = (n : ℚ) := ⟨q.num, by
    conv_lhs => rw [← Rat.num_div_den q]
    rw [h]
    norm_num⟩
  unfold Dec3
  rw [show ((n : ℚ) * 1000) = ((n * 1000 : ℤ) : ℚ) by push_cast; ring]
  exact Rat.den_intCast _

theorem dec3_toStrVal (q : ℚ) : Dec3 (toStrVal q) := by
  unfold toStrVal
  split
  · exact dec3_of_den_one q (by assumption)
  · exact dec3_round3 q

theorem toStrVal_idem (q : ℚ) : toStrVal (toStrVal q) = toStrVal q :=
  toStrVal_dec3 _ (dec3_toStrVal q)

theorem toStrVal_double_mirror (v : ℚ) :
    toStrVal (toStrVal (v * -1) * -1) = toStrVal v := by
  rw [mul_neg_one, mul_neg_one, toStrVal_neg_eq v, neg_neg, toStrVal_idem]

theorem toStrVal_double_neg (v : ℚ) : toStrVal (-toStrVal (-v)) = toStrVal v := by
  rw [toStrVal_neg_eq v, neg_neg, toStrVal_idem]

/-! ## C4 -/

/-- C4: every helix polygon point lies at distance `|r_helix|` from the
cylinder center with `r_helix = radius ∓ (tool_rad + stepover)` (sign by
bore/profile), every finishing-cut point at distance `|r_finish|` with
`r_finish = radius ∓ tool_rad`; and the concrete instance
`radius=10, tool_dia=3.175, bore, stepover=0` gives helix radius
`8.4125 = 673/80`. -/
theorem cylinder_radius_convention :
    (∀ (radius tool_dia stepover cx cy : ℚ) (bore : Bool) (θ : ℝ),
      (helixX (rHelix radius tool_dia stepover bore) cx θ - cx) ^ 2 +
        (helixY (rHelix radius tool_dia stepover bore) cy θ - cy) ^ 2 =
        ((rHelix radius tool_dia stepover bore : ℚ) : ℝ) ^ 2) ∧
    (∀ (radius tool_dia cx cy : ℚ) (bore : Bool) (θ : ℝ),
      (helixX (rFinish radius tool_dia bore) cx θ - cx) ^ 2 +
        (helixY (rFinish radius tool_dia bore) cy θ - cy) ^ 2 =
        ((rFinish radius tool_dia bore : ℚ) : ℝ) ^ 2) ∧
    (∀ radius tool_dia stepover : ℚ,
      rHelix radius tool_dia stepover true = radius - tool_dia / 2 - stepover) ∧
    (∀ radius tool_dia stepover : ℚ,
      rHelix radius tool_dia stepover false = radius + tool_dia / 2 + stepover) ∧
    (∀ radius tool_dia : ℚ,
      rFinish radius tool_dia true = radius - tool_dia / 2 ∧
      rFinish radius tool_dia false = radius + tool_dia / 2) ∧
    rHelix 10 (127/40) 0 true = 673/80 := by
  refine ⟨?_, ?_, ?_, ?_, ?_, by norm_num [rHelix]⟩
  · intro radius tool_dia stepover cx cy bore θ
    unfold helixX helixY
    have h := Real.sin_sq_add_cos_sq θ
    nlinarith [h]
  · intro radius tool_dia cx cy bore θ
    unfold helixX helixY
    have h := Real.sin_sq_add_cos_sq θ
    nlinarith [h]
  · intro radius tool_dia stepover
    unfold rHelix
    norm_num
    ring
  · intro radius tool_dia stepover
    unfold rHelix
    norm_num
    ring
  · intro radius tool_dia
    unfold rFinish
    norm_num

/-! ## C6 -/

/-- C6: `Scale` does not preserve the bounding-box center.  On the program
`G0 X5 / G0 X3`, `Center` reports `(3/2, 0, 0)` before scaling and
`(9/4, 0, 0)` after `Scale(2)` — a drift of `3/4`, far beyond the 3-decimal
formatting tolerance.  (Root cause: the `elif` in `Extents` never updates a
maximum in an iteration that updated the minimum, so the scanned `x_max`
of `X5 X3` stays `-inf` and is cleaned to `0`.) -/
theorem axisVals_scaleDriftProg :
    axisVals .X scaleDriftProg = [5, 3] ∧ axisVals .Y scaleDriftProg = [] ∧
      axisVals .Z scaleDriftProg = [] := by
  refine ⟨?_, ?_, ?_⟩ <;> simp [axisVals, scaleDriftProg]

theorem extents_scaleDriftProg : Extents scaleDriftProg = ⟨3, 0, 0, 0, 0, 0⟩ := by
  unfold Extents
  rw [axisVals_scaleDriftProg.1, axisVals_scaleDriftProg.2.1,
    axisVals_scaleDriftProg.2.2]
  norm_num [extScan, extStep, eLT, eGT, eClean]

theorem scaleTokens_scaleDriftProg :
    scaleTokens 2 scaleDriftProg = [⟨.X, 10⟩, ⟨.X, 6⟩] := by
  simp [scaleTokens, subAxis, scaleDriftProg]
  norm_num [toStrVal]

theorem extents_scaled :
    Extents (scaleTokens 2 scaleDriftProg) = ⟨6, 0, 0, 0, 0, 0⟩ := by
  rw [scaleTokens_scaleDriftProg]
  have hx : axisVals .X [⟨.X, 10⟩, ⟨.X, 6⟩] = [10, 6] := by simp [axisVals]
  have hy : axisVals .Y [⟨.X, 10⟩, ⟨.X, 6⟩] = [] := by simp [axisVals]
  have hz : axisVals .Z [⟨.X, 10⟩, ⟨.X, 6⟩] = [] := by simp [axisVals]
  unfold Extents
  rw [hx, hy, hz]
  norm_num [extScan, extStep, eLT, eGT, eClean]

theorem scale_scaleDriftProg :
    Scale 2 scaleDriftProg = [⟨.X, 17/2⟩, ⟨.X, 9/2⟩] := by
  have hpre : Center scaleDriftProg = (3/2, 0, 0) := by
    unfold Center
    rw [extents_scaleDriftProg]
    norm_num
  have hpost : Center (scaleTokens 2 scaleDriftProg) = (3, 0, 0) := by
    unfold Center
    rw [extents_scaled]
    norm_num
  unfold Scale
  rw [hpre, hpost, scaleTokens_scaleDriftProg]
  simp [Translate, subAxis]
  norm_num [toStrVal, round3, roundHalfAway]

/-- C6: `Scale` does not preserve the bounding-box center.  On the program
`G0 X5 / G0 X3`, `Center` reports `(3/2, 0, 0)` before scaling and
`(9/4, 0, 0)` after `Scale(2)` — a drift of `3/4`, far beyond the 3-decimal
formatting tolerance.  (Root cause: the `elif` in `Extents` never updates the
maximum in an iteration that updated the minimum, so the scanned `x_max` of
`X5 X3` stays `-inf` and is cleaned to `0`.) -/
theorem scale_center_drift :
    Center scaleDriftProg = (3/2, 0, 0) ∧
    Center (Scale 2 scaleDriftProg) = (9/4, 0, 0) ∧
    Center (Scale 2 scaleDriftProg) ≠ Center scaleDriftProg ∧
    (Extents scaleDriftProg).x_max = 0 := by
  have hpre : Center scaleDriftProg = (3/2, 0, 0) := by
    unfold Center
    rw [extents_scaleDriftProg]
    norm_num
  have hfin : Center (Scale 2 scaleDriftProg) = (9/4, 0, 0) := by
    rw [scale_scaleDriftProg]
    have hx : axisVals .X [⟨.X, 17/2⟩, ⟨.X, 9/2⟩] = [17/2, 9/2] := by simp [axisVals]
    have hy : axisVals .Y [⟨.X, 17/2⟩, ⟨.X, 9/2⟩] = [] := by simp [axisVals]
    have hz : axisVals .Z [⟨.X, 17/2⟩, ⟨.X, 9/2⟩] = [] := by simp [axisVals]
    unfold Center Extents
    rw [hx, hy, hz]
    norm_num [extScan, extStep, eLT, eGT, eClean]
  refine ⟨hpre, hfin, ?_, ?_⟩
  · rw [hpre, hfin]
    norm_num
  · rw [extents_scaleDriftProg]

/-! ## C7 -/

theorem mirrorX_tok (t : Tok) (h : Dec3 t.val) :
    (fun t : Tok => if t.letter = Axis.J then
        { t with val := toStrVal (t.val * -1) } else t)
      ((fun t : Tok => if t.letter = Axis.Y then
        { t with val := toStrVal (t.val * -1) } else t) t) =
    (fun t : Tok => if t.letter = Axis.Y ∨ t.letter = Axis.J then
        { t with val := -t.val } else t) t := by
  rcases t with ⟨l, v⟩
  cases l <;> simp [toStrVal_neg v h]

theorem mirrorY_tok (t : Tok) (h : Dec3 t.val) :
    (fun t : Tok => if t.letter = Axis.I then
        { t with val := toStrVal (t.val * -1) } else t)
      ((fun t : Tok => if t.letter = Axis.X then
        { t with val := toStrVal (t.val * -1) } else t) t) =
    (fun t : Tok => if t.letter = Axis.X ∨ t.letter = Axis.I then
        { t with val := -t.val } else t) t := by
  rcases t with ⟨l, v⟩
  cases l <;> simp [toStrVal_neg v h]

theorem mirrorX_eq_negYJ (g : GProg) (h : Norm3 g) : MirrorX g = negYJ g := by
  unfold MirrorX negYJ subAxis
  rw [List.map_map]
  exact List.map_congr_left fun t ht => mirrorX_tok t (h t ht)

theorem mirrorY_eq_negXI (g : GProg) (h : Norm3 g) : MirrorY g = negXI g := by
  unfold MirrorY negXI subAxis
  rw [List.map_map]
  exact List.map_congr_left fun t ht => mirrorY_tok t (h t ht)

theorem norm3_negYJ (g : GProg) (h : Norm3 g) : Norm3 (negYJ g) := by
  intro t ht
  unfold negYJ at ht
  rcases List.mem_map.mp ht with ⟨s, hs, rfl⟩
  split
  · exact dec3_neg _ (h s hs)
  · exact h s hs

theorem norm3_negXI (g : GProg) (h : Norm3 g) : Norm3 (negXI g) := by
  intro t ht
  unfold negXI at ht
  rcases List.mem_map.mp ht with ⟨s, hs, rfl⟩
  split
  · exact dec3_neg _ (h s hs)
  · exact h s hs

/-- C7: on a program whose numeric tokens sit on the 3-decimal formatting
grid (the invariant "modulo numeric-formatting normalization"), `MirrorX`
twice and `MirrorY` twice are the identity, a single `MirrorX` exactly
negates every Y and every J token, and a single `MirrorY` exactly negates
every X and every I token; and on an arbitrary program, a mirror applied
twice returns the original program with the mirrored tokens normalized to
the 3-decimal formatting grid and every other token untouched. -/
theorem mirror_involution (g : GProg) (h : Norm3 g) :
    (MirrorX (MirrorX g) = g ∧ MirrorY (MirrorY g) = g ∧
      MirrorX g = negYJ g ∧ MirrorY g = negXI g) ∧
    (∀ g2 : GProg, MirrorX (MirrorX g2) = normYJ g2 ∧
      MirrorY (MirrorY g2) = normXI g2) := by
  have hX := mirrorX_eq_negYJ g h
  have hY := mirrorY_eq_negXI g h
  constructor
  · refine ⟨?_, ?_, hX, hY⟩
    · rw [hX, mirrorX_eq_negYJ _ (norm3_negYJ g h)]
      unfold negYJ
      rw [List.map_map]
      conv_rhs => rw [← List.map_id g]
      refine List.map_congr_left fun t _ => ?_
      rcases t with ⟨l, v⟩
      cases l <;> simp
    · rw [hY, mirrorY_eq_negXI _ (norm3_negXI g h)]
      unfold negXI
      rw [List.map_map]
      conv_rhs => rw [← List.map_id g]
      refine List.map_congr_left fun t _ => ?_
      rcases t with ⟨l, v⟩
      cases l <;> simp
  · intro g2
    constructor
    · unfold MirrorX normYJ subAxis
      rw [List.map_map, List.map_map, List.map_map]
      refine List.map_congr_left fun t _ => ?_
      rcases t with ⟨l, v⟩
      cases l <;> simp [toStrVal_double_mirror, toStrVal_double_neg]
    · unfold MirrorY normXI subAxis
      rw [List.map_map, List.map_map, List.map_map]
      refine List.map_congr_left fun t _ => ?_
      rcases t with ⟨l, v⟩
      cases l <;> simp [toStrVal_double_mirror, toStrVal_double_neg]

/-- Witness for C7 at a concrete three-token program. -/
theorem mirror_involution_witness :
    MirrorX (MirrorX [⟨.Y, 5/4⟩, ⟨.J, -2⟩, ⟨.X, 7/2⟩]) =
      [⟨.Y, 5/4⟩, ⟨.J, -2⟩, ⟨.X, 7/2⟩] ∧
    MirrorX [⟨.Y, 5/4⟩, ⟨.J, -2⟩, ⟨.X, 7/2⟩] =
      negYJ [⟨.Y, 5/4⟩, ⟨.J, -2⟩, ⟨.X, 7/2⟩] := by
  have h := mirror_involution [⟨.Y, 5/4⟩, ⟨.J, -2⟩, ⟨.X, 7/2⟩]
    (by norm_num [Norm3, Dec3])
  exact ⟨h.1.1, h.1.2.2.1⟩

/-! ## C10 -/

theorem foldl_extStep_fst (vs : List ℚ) (acc : EVal × EVal) :
    (vs.foldl extStep acc).1 = acc.1 ∨ ∃ v ∈ vs, (vs.foldl extStep acc).1 = .num v := by
  induction vs generalizing acc with
  | nil => exact Or.inl rfl
  | cons v vs ih =>
    rw [List.foldl_cons]
    rcases ih (extStep acc v) with h | ⟨w, hw, h⟩
    · rw [h]
      unfold extStep
      split
      · exact Or.inr ⟨v, List.mem_cons_self v vs, rfl⟩
      · split
        · exact Or.inl rfl
        · exact Or.inl rfl
    · exact Or.inr ⟨w, List.mem_cons_of_mem v hw, h⟩

theorem foldl_extStep_snd (vs : List ℚ) (acc : EVal × EVal) :
    (vs.foldl extStep acc).2 = acc.2 ∨ ∃ v ∈ vs, (vs.foldl extStep acc).2 = .num v := by
  induction vs generalizing acc with
  | nil => exact Or.inl rfl
  | cons v vs ih =>
    rw [List.foldl_cons]
    rcases ih (extStep acc v) with h | ⟨w, hw, h⟩
    · rw [h]
      unfold extStep
      split
      · exact Or.inl rfl
      · split
        · exact Or.inr ⟨v, List.mem_cons_self v vs, rfl⟩
        · exact Or.inl rfl
    · exact Or.inr ⟨w, List.mem_cons_of_mem v hw, h⟩

theorem eClean_scan_fst (vs : List ℚ) :
    eClean (extScan vs).1 = 0 ∨ eClean (extScan vs).1 ∈ vs := by
  rcases foldl_extStep_fst vs (.pinf, .ninf) with h | ⟨w, hw, h⟩
  · left
    unfold extScan
    rw [h]
    rfl
  · right
    unfold extScan
    rw [h]
    exact hw

theorem eClean_scan_snd (vs : List ℚ) :
    eClean (extScan vs).2 = 0 ∨ eClean (extScan vs).2 ∈ vs := by
  rcases foldl_extStep_snd vs (.pinf, .ninf) with h | ⟨w, hw, h⟩
  · left
    unfold extScan
    rw [h]
    rfl
  · right
    unfold extScan
    rw [h]
    exact hw

/-- C10: `Extents` always yields six finite numbers: each reported bound is
either an actual coordinate-token value of its axis or the default `0`
produced by the `ext[np.isinf(ext)] = 0` cleanup; in particular every axis
with no coordinate token (including all axes of a token-free program)
reports `0` for both bounds, and `Center` is the finite midpoint of those
bounds. -/
theorem extents_always_finite (g : GProg) :
    (axisVals .X g = [] → (Extents g).x_min = 0 ∧ (Extents g).x_max = 0) ∧
    (axisVals .Y g = [] → (Extents g).y_min = 0 ∧ (Extents g).y_max = 0) ∧
    (axisVals .Z g = [] → (Extents g).z_min = 0 ∧ (Extents g).z_max = 0) ∧
    ((Extents g).x_min = 0 ∨ (Extents g).x_min ∈ axisVals .X g) ∧
    ((Extents g).x_max = 0 ∨ (Extents g).x_max ∈ axisVals .X g) ∧
    ((Extents g).y_min = 0 ∨ (Extents g).y_min ∈ axisVals .Y g) ∧
    ((Extents g).y_max = 0 ∨ (Extents g).y_max ∈ axisVals .Y g) ∧
    ((Extents g).z_min = 0 ∨ (Extents g).z_min ∈ axisVals .Z g) ∧
    ((Extents g).z_max = 0 ∨ (Extents g).z_max ∈ axisVals .Z g) ∧
    Center g = (((Extents g).x_min + (Extents g).x_max) / 2,
      ((Extents g).y_min + (Extents g).y_max) / 2,
      ((Extents g).z_min + (Extents g).z_max) / 2) := by
  refine ⟨?_, ?_, ?_, ?_, ?_, ?_, ?_, ?_, ?_, rfl⟩
  · intro h
    unfold Extents
    rw [h]
    exact ⟨rfl, rfl⟩
  · intro h
    unfold Extents
    rw [h]
    exact ⟨rfl, rfl⟩
  · intro h
    unfold Extents
    rw [h]
    exact ⟨rfl, rfl⟩
  · exact eClean_scan_fst (axisVals .X g)
  · exact eClean_scan_snd (axisVals .X g)
  · exact eClean_scan_fst (axisVals .Y g)
  · exact eClean_scan_snd (axisVals .Y g)
  · exact eClean_scan_fst (axisVals .Z g)
  · exact eClean_scan_snd (axisVals .Z g)

/-- Witness for C10 on the empty program: all six bounds default to 0. -/
theorem extents_always_finite_witness :
    (Extents []).x_min = 0 ∧ (Extents []).x_max = 0 ∧
    (Extents []).y_min = 0 ∧ (Extents []).y_max = 0 ∧
    (Extents []).z_min = 0 ∧ (Extents []).z_max = 0 := by
  have h := extents_always_finite []
  have hx := h.1 (by simp [axisVals])
  have hy := h.2.1 (by simp [axisVals])
  have hz := h.2.2.1 (by simp [axisVals])
  exact ⟨hx.1, hx.2, hy.1, hy.2, hz.1, hz.2⟩

/-! ## C8 -/

/-- C8 counterexample: with `stepover = tool_dia = 3.175` the claim says
`ParamCheck` raises (`stepover ≥ tool_diameter`), but the source guard is
the strict `tool_dia < stepover`, so the check returns normally. -/
theorem paramCheck_equal_stepover_no_raise :
    ParamCheck ⟨0, -3, 3, 1/4, 127/40, 127/40⟩ =
      .ok ⟨0, -3, 3, 1/4, 127/40, 127/40⟩ ∧
    (⟨0, -3, 3, 1/4, 127/40, 127/40⟩ : TPParams).tool_dia ≤
      (⟨0, -3, 3, 1/4, 127/40, 127/40⟩ : TPParams).stepover := by
  constructor
  · norm_num [ParamCheck, RETRACT_MIN]
  · norm_num

/-- The check succeeds exactly when `z_bottom ≤ z_top` and
`stepover ≤ tool_dia`. -/
theorem paramCheck_ok_iff (p : TPParams) :
    (∃ q, ParamCheck p = .ok q) ↔ p.z_bottom ≤ p.z_top ∧ p.stepover ≤ p.tool_dia := by
  unfold ParamCheck
  simp only [apply_ite TPParams.z_top, apply_ite TPParams.z_bottom,
    apply_ite TPParams.stepdown, apply_ite TPParams.tool_dia,
    apply_ite TPParams.stepover, apply_ite TPParams.z_retract_dist, ite_self]
  split_ifs with h1 h2 h3 h4 h5 h6 h7 h8 h9 h10 h11 h12
  all_goals
    simp only [reduceCtorEq, exists_false, false_iff, Except.ok.injEq,
      exists_eq', true_iff, not_and, not_le]
  all_goals
    try (constructor <;> linarith)
  all_goals intro h
  all_goals linarith

theorem paramCheck_ok_fields (p q : TPParams) (h : ParamCheck p = .ok q) :
    q.z_top = p.z_top ∧ q.z_bottom = p.z_bottom ∧
      q.z_retract_dist = max p.z_retract_dist RETRACT_MIN ∧
      q.stepdown = min p.stepdown (p.z_top - p.z_bottom) ∧
      q.stepover = p.stepover ∧ q.tool_dia = p.tool_dia := by
  unfold ParamCheck at h
  simp only [apply_ite TPParams.z_top, apply_ite TPParams.z_bottom,
    apply_ite TPParams.stepdown, apply_ite TPParams.tool_dia,
    apply_ite TPParams.stepover, apply_ite TPParams.z_retract_dist, ite_self] at h
  split_ifs at h with h1 h2 h3 h4 h5 h6 h7 h8 h9 h10 h11 h12
  all_goals simp only [reduceCtorEq, Except.ok.injEq] at h
  all_goals subst h
  all_goals refine ⟨rfl, rfl, ?_, ?_, rfl, rfl⟩
  all_goals simp only [max_def, min_def]
  all_goals split_ifs
  all_goals first | rfl | linarith

/-- C8 (amended): `ParamCheck` raises exactly when `z_top < z_bottom` or
`stepover > tool_diameter` (strict); a retract distance below `RETRACT_MIN`
and a stepdown exceeding `z_top − z_bottom` never raise — they are clamped
to `RETRACT_MIN` resp. `z_top − z_bottom` and the check returns normally
with every other field unchanged. -/
theorem paramCheck_spec (p : TPParams) :
    ((∃ q, ParamCheck p = .ok q) ↔ p.z_bottom ≤ p.z_top ∧ p.stepover ≤ p.tool_dia) ∧
    (∀ q, ParamCheck p = .ok q →
      q.z_top = p.z_top ∧ q.z_bottom = p.z_bottom ∧
      q.z_retract_dist = max p.z_retract_dist RETRACT_MIN ∧
      q.stepdown = min p.stepdown (p.z_top - p.z_bottom) ∧
      q.stepover = p.stepover ∧ q.tool_dia = p.tool_dia) :=
  ⟨paramCheck_ok_iff p, fun q h => paramCheck_ok_fields p q h⟩

/-- Witness for C8: a parameter set with too-small retract (0.2) and
too-large stepdown (10) passes the check with both values clamped. -/
theorem paramCheck_spec_witness :
    ∃ q, ParamCheck ⟨0, -3, 1/5, 10, 1, 2⟩ = .ok q ∧
      q.z_retract_dist = 1/2 ∧ q.stepdown = 3 := by
  obtain ⟨q, hq⟩ := (paramCheck_spec ⟨0, -3, 1/5, 10, 1, 2⟩).1.mpr (by norm_num)
  have h2 := (paramCheck_spec ⟨0, -3, 1/5, 10, 1, 2⟩).2 q hq
  refine ⟨q, hq, ?_, ?_⟩
  · rw [h2.2.2.1]
    rw [show max (1/5 : ℚ) RETRACT_MIN = 1/2 by norm_num [RETRACT_MIN, max_eq_right]]
  · rw [h2.2.2.2.1]
    rw [show min (10 : ℚ) ((0 : ℚ) - -3) = 3 by norm_num [min_eq_right]]

/-! ## C3 -/

/-- C3: the multipass height sequence itself matches the claim's example
(`z_top=1.3`, `stepdown=0.4`, min Z `-2.0`), but `zmultipass` does not
replicate the minimum-Z block of every program: `zblocks` never returns the
block opened by the program's last Z-bearing line, so on
`G0 X1 Y1 / G1 Z-2.0 X5` (minimum Z = `-2` on the final line) the whole
minimum-Z block is dropped and the output contains no Z token at all. -/
theorem zmultipass_min_block_dropped :
    zheights (13/10) (2/5) (-2) =
      [9/10, 1/2, 1/10, -3/10, -7/10, -11/10, -3/2, -19/10, -2] ∧
    (ZLevels zmpProg).min? = some (-2) ∧
    zmultipass (13/10) (2/5) zmpProg = some [[⟨.X, 1⟩, ⟨.Y, 1⟩]] ∧
    ZLevels [[⟨.X, 1⟩, ⟨.Y, 1⟩]] = [] := by
  have hzl : ZLevels zmpProg = [-2] := by
    simp [ZLevels, zmpProg]
  have hmin : (ZLevels zmpProg).min? = some (-2) := by
    rw [hzl]
    rfl
  have hblocks : zblocks zmpProg =
      [⟨[[⟨.X, 1⟩, ⟨.Y, 1⟩]], none, none, none⟩] := by
    simp [zblocks, zblocksGo, zmpProg, lineVal, track, List.find?]
  have hbz : blockZ ⟨[[⟨.X, 1⟩, ⟨.Y, 1⟩]], none, none, none⟩ = none := by
    simp [blockZ, lineVal, List.find?]
  refine ⟨?_, hmin, ?_, by simp [ZLevels]⟩
  · unfold zheights
    norm_num [arangeDown_pos, arangeDown_stop]
  · unfold zmultipass
    rw [hmin, hblocks]
    simp only [List.flatMap_cons, List.flatMap_nil, hbz]
    simp

/-! ## C1 -/

/-- C1: on `x=2, y=3, width=height=10, z_top=0, z_bottom=-1, stepdown=0.75,
tool_dia=3.175, Pocket`, the generator emits
`ceil((z_top−z_bottom)/stepdown) + 1 = 3` five-row groups, but the final
group is five copies of the uninitialized row `(x, y, 0) = (2, 3, 0)` — not
a closed corner loop, and its Z is `0`, not `z_bottom = -1`; the pass that
reaches `z_bottom` is the second-to-last group. -/
theorem rect_spurious_final_pass :
    rectNPasses 0 (-1) (3/4) = 3 ∧
    (rectEmitted 2 3 10 10 0 (-1) (3/4) (127/40) true).length = 15 ∧
    (rectEmitted 2 3 10 10 0 (-1) (3/4) (127/40) true).drop 10 =
      List.replicate 5 ((2 : ℚ), 3, 0) ∧
    ((rectEmitted 2 3 10 10 0 (-1) (3/4) (127/40) true).take 10).map
        (fun p => p.2.2) =
      [-3/4, -3/4, -3/4, -3/4, -3/4, -1, -1, -1, -1, -1] ∧
    ((0 : ℚ) = -1) = False := by
  have hloop : rectZLoop (-1) (3/4) 0 = [-3/4, -1] := by
    norm_num [rectZLoop_pos, rectZLoop_stop, stepClamp]
  have hcl : ⌈(4/3 : ℚ)⌉ = 2 := by
    rw [Int.ceil_eq_iff]
    norm_num
  have hnp : rectNPasses 0 (-1) (3/4) = 3 := by
    unfold rectNPasses
    norm_num [hcl]
  have hemit : rectEmitted 2 3 10 10 0 (-1) (3/4) (127/40) true =
      corners5 (287/80) (833/80) (367/80) (913/80) (-3/4) ++
      corners5 (287/80) (833/80) (367/80) (913/80) (-1) ++
      List.replicate 5 ((2 : ℚ), 3, 0) := by
    unfold rectEmitted rectPositions rectFilled
    rw [hloop, hnp]
    norm_num [rectRt, corners5, List.replicate]
  rw [hemit]
  refine ⟨hnp, by simp [corners5], by simp [corners5, List.replicate], ?_, by norm_num⟩
  simp [corners5, List.replicate]

/-! ## C5 -/

/-- C5 counterexample: `z_top=0, z_bottom=-1, stepdown=0.4, stepover=0`
gives `ceil((z_top−z_bottom)/stepdown) = 3`, but the generator runs 4
passes (the non-integral ratio with zero stepover adds one). -/
theorem cylinder_pass_count_counterexample :
    cylNPasses 0 (-1) (2/5) 0 = 4 ∧ (⌈((0 : ℚ) - -1) / (2/5)⌉ : ℤ) = 3 := by
  have hc : (⌈((0 : ℚ) - -1) / (2/5)⌉ : ℤ) = 3 := by
    rw [show ((0 : ℚ) - -1) / (2/5) = 5/2 by norm_num]
    rw [Int.ceil_eq_iff]
    norm_num
  refine ⟨?_, hc⟩
  unfold cylNPasses
  rw [if_pos]
  · rw [hc]
    decide
  · constructor
    · rw [hc]
      norm_num
    · rfl

theorem cylZ_ge (zt zb s : ℚ) (m : ℕ) (hs : 0 < s) (hsd : s ≤ zt - zb)
    (hm : 0 < m) (i j : ℕ) (hj : j ≤ m) : zb ≤ cylZ zt zb s m i j := by
  cases i with
  | zero =>
    unfold cylZ zlin
    have hmq : (0 : ℚ) < (m : ℚ) := by exact_mod_cast hm
    have hjm : (j : ℚ) ≤ (m : ℚ) := by exact_mod_cast hj
    have h1 : s * (j : ℚ) ≤ s * (m : ℚ) :=
      mul_le_mul_of_nonneg_left hjm (le_of_lt hs)
    have h2 : s * (j : ℚ) / (m : ℚ) ≤ s := by
      rw [div_le_iff hmq]
      linarith
    linarith
  | succ i =>
    unfold cylZ
    split
    · exact le_refl zb
    · linarith [not_lt.mp (by assumption : ¬cylZ zt zb s m i j - s < zb)]

/-- C5 (amended): with checked parameters (`z_bottom < z_top`,
`0 < stepdown ≤ z_top − z_bottom`, the post-`ParamCheck` state), the
cylinder generator emits `ceil((z_top−z_bottom)/stepdown)` helix passes
when the ratio is an exact integer or a finishing stepover is set, and one
extra pass otherwise; every Z coordinate it emits is capped below at
`z_bottom`. -/
theorem cylinder_passes_spec (zt zb s so : ℚ) (m : ℕ)
    (hzb : zb < zt) (hs : 0 < s) (hsd : s ≤ zt - zb) (hm : 0 < m) :
    (cylNPasses zt zb s so =
      if (⌈(zt - zb) / s⌉ : ℚ) = (zt - zb) / s ∨ so ≠ 0 then ⌈(zt - zb) / s⌉
      else ⌈(zt - zb) / s⌉ + 1) ∧
    ∀ z ∈ cylEmittedZs zt zb s so m, zb ≤ z := by
  constructor
  · unfold cylNPasses
    by_cases h1 : (⌈(zt - zb) / s⌉ : ℚ) = (zt - zb) / s
    · simp [h1]
    · by_cases h2 : so = 0
      · simp [h1, h2]
      · simp [h1, h2]
  · intro z hz
    unfold cylEmittedZs at hz
    rcases List.mem_append.mp hz with h | h
    · rcases List.mem_flatMap.mp h with ⟨i, _, hpz⟩
      unfold cylPassZs at hpz
      rcases List.mem_append.mp hpz with h2 | h2
      · rcases List.mem_map.mp h2 with ⟨j, hj, rfl⟩
        exact cylZ_ge zt zb s m hs hsd hm i j (le_of_lt (List.mem_range.mp hj))
      · rcases List.mem_ite_nil_right.mp h2 with ⟨_, h3⟩
        rcases List.mem_singleton.mp h3 with rfl
        exact cylZ_ge zt zb s m hs hsd hm i m (le_refl m)
    · rcases List.mem_singleton.mp h with rfl
      exact cylZ_ge zt zb s m hs hsd hm _ m (le_refl m)

/-- Witness for C5 at `z_top=1, z_bottom=0, stepdown=1, stepover=0,
segments=1`: one pass, and the closing point's Z is capped at 0. -/
theorem cylinder_passes_spec_witness :
    cylNPasses 1 0 1 0 = 1 ∧ (0 : ℚ) ≤ cylZ 1 0 1 1 1 1 := by
  have h := cylinder_passes_spec 1 0 1 0 1 (by norm_num) (by norm_num)
    (by norm_num) (by norm_num)
  constructor
  · rw [h.1, if_pos]
    · rw [show ((1 : ℚ) - 0) / 1 = 1 by norm_num]
      exact Int.ceil_one
    · left
      rw [show ((1 : ℚ) - 0) / 1 = 1 by norm_num]
      rw [Int.ceil_one]
      norm_num
  · refine h.2 (cylZ 1 0 1 1 1 1) ?_
    unfold cylEmittedZs
    refine List.mem_append.mpr (Or.inr ?_)
    have : (cylNPasses 1 0 1 0).toNat = 1 := by
      rw [h.1, if_pos]
      · rw [show ((1 : ℚ) - 0) / 1 = 1 by norm_num, Int.ceil_one]
        rfl
      · left
        rw [show ((1 : ℚ) - 0) / 1 = 1 by norm_num, Int.ceil_one]
        norm_num
    rw [this]
    exact List.mem_singleton.mpr rfl

/-! ## C2 -/

theorem axisVals_append (a : Axis) (g1 g2 : GProg) :
    axisVals a (g1 ++ g2) = axisVals a g1 ++ axisVals a g2 := by
  simp [axisVals]

theorem axisVals_flatMap_rectLineTokens (rows : List (ℚ × ℚ × ℚ)) :
    axisVals .X (rows.flatMap rectLineTokens) = rows.map (fun p => toStrVal p.1) ∧
    axisVals .Y (rows.flatMap rectLineTokens) = rows.map (fun p => toStrVal p.2.1) ∧
    axisVals .Z (rows.flatMap rectLineTokens) = rows.map (fun p => toStrVal p.2.2) := by
  induction rows with
  | nil => exact ⟨rfl, rfl, rfl⟩
  | cons p rest ih =>
    rw [List.flatMap_cons]
    refine ⟨?_, ?_, ?_⟩
    · rw [axisVals_append, ih.1]
      simp [axisVals, rectLineTokens]
    · rw [axisVals_append, ih.2.1]
      simp [axisVals, rectLineTokens]
    · rw [axisVals_append, ih.2.2]
      simp [axisVals, rectLineTokens]

theorem toStrVal_xa : toStrVal (127/80) = 397/250 := by
  norm_num [toStrVal, round3, roundHalfAway]

theorem toStrVal_xb : toStrVal (3073/80) = 38413/1000 := by
  norm_num [toStrVal, round3, roundHalfAway]

theorem toStrVal_yd : toStrVal (313/80) = 3913/1000 := by
  norm_num [toStrVal, round3, roundHalfAway]

set_option maxHeartbeats 2000000 in
theorem rectScenario_loop : rectZLoop (-15) (3/4) 0 = [-3/4, -3/2, -9/4, -3, -15/4, -9/2, -21/4, -6, -27/4, -15/2, -33/4, -9, -39/4, -21/2, -45/4, -12, -51/4, -27/2, -57/4, -15] := by
  norm_num [rectZLoop_pos, rectZLoop_stop, stepClamp]

theorem rectScenario_npasses : rectNPasses 0 (-15) (3/4) = 21 := by
  unfold rectNPasses
  rw [show ((0 : ℚ) - -15) / (3/4) = 20 by norm_num]
  norm_num

set_option maxRecDepth 4000 in
set_option maxHeartbeats 4000000 in
theorem rectScenario_rows :
    (rectEmitted 0 0 40 (11/2) 0 (-15) (3/4) (127/40) true).filter
      (fun p => ¬(p.1 = 0 ∧ p.2.1 = 0)) =
    [(127/80, 127/80, -3/4),
      (3073/80, 127/80, -3/4),
      (3073/80, 313/80, -3/4),
      (127/80, 313/80, -3/4),
      (127/80, 127/80, -3/4),
      (127/80, 127/80, -3/2),
      (3073/80, 127/80, -3/2),
      (3073/80, 313/80, -3/2),
      (127/80, 313/80, -3/2),
      (127/80, 127/80, -3/2),
      (127/80, 127/80, -9/4),
      (3073/80, 127/80, -9/4),
      (3073/80, 313/80, -9/4),
      (127/80, 313/80, -9/4),
      (127/80, 127/80, -9/4),
      (127/80, 127/80, -3),
      (3073/80, 127/80, -3),
      (3073/80, 313/80, -3),
      (127/80, 313/80, -3),
      (127/80, 127/80, -3),
      (127/80, 127/80, -15/4),
      (3073/80, 127/80, -15/4),
      (3073/80, 313/80, -15/4),
      (127/80, 313/80, -15/4),
      (127/80, 127/80, -15/4),
      (127/80, 127/80, -9/2),
      (3073/80, 127/80, -9/2),
      (3073/80, 313/80, -9/2),
      (127/80, 313/80, -9/2),
      (127/80, 127/80, -9/2),
      (127/80, 127/80, -21/4),
      (3073/80, 127/80, -21/4),
      (3073/80, 313/80, -21/4),
      (127/80, 313/80, -21/4),
      (127/80, 127/80, -21/4),
      (127/80, 127/80, -6),
      (3073/80, 127/80, -6),
      (3073/80, 313/80, -6),
      (127/80, 313/80, -6),
      (127/80, 127/80, -6),
      (127/80, 127/80, -27/4),
      (3073/80, 127/80, -27/4),
      (3073/80, 313/80, -27/4),
      (127/80, 313/80, -27/4),
      (127/80, 127/80, -27/4),
      (127/80, 127/80, -15/2),
      (3073/80, 127/80, -15/2),
      (3073/80, 313/80, -15/2),
      (127/80, 313/80, -15/2),
      (127/80, 127/80, -15/2),
      (127/80, 127/80, -33/4),
      (3073/80, 127/80, -33/4),
      (3073/80, 313/80, -33/4),
      (127/80, 313/80, -33/4),
      (127/80, 127/80, -33/4),
      (127/80, 127/80, -9),
      (3073/80, 127/80, -9),
      (3073/80, 313/80, -9),
      (127/80, 313/80, -9),
      (127/80, 127/80, -9),
      (127/80, 127/80, -39/4),
      (3073/80, 127/80, -39/4),
      (3073/80, 313/80, -39/4),
      (127/80, 313/80, -39/4),
      (127/80, 127/80, -39/4),
      (127/80, 127/80, -21/2),
      (3073/80, 127/80, -21/2),
      (3073/80, 313/80, -21/2),
      (127/80, 313/80, -21/2),
      (127/80, 127/80, -21/2),
      (127/80, 127/80, -45/4),
      (3073/80, 127/80, -45/4),
      (3073/80, 313/80, -45/4),
      (127/80, 313/80, -45/4),
      (127/80, 127/80, -45/4),
      (127/80, 127/80, -12),
      (3073/80, 127/80, -12),
      (3073/80, 313/80, -12),
      (127/80, 313/80, -12),
      (127/80, 127/80, -12),
      (127/80, 127/80, -51/4),
      (3073/80, 127/80, -51/4),
      (3073/80, 313/80, -51/4),
      (127/80, 313/80, -51/4),
      (127/80, 127/80, -51/4),
      (127/80, 127/80, -27/2),
      (3073/80, 127/80, -27/2),
      (3073/80, 313/80, -27/2),
      (127/80, 313/80, -27/2),
      (127/80, 127/80, -27/2),
      (127/80, 127/80, -57/4),
      (3073/80, 127/80, -57/4),
      (3073/80, 313/80, -57/4),
      (127/80, 313/80, -57/4),
      (127/80, 127/80, -57/4),
      (127/80, 127/80, -15),
      (3073/80, 127/80, -15),
      (3073/80, 313/80, -15),
      (127/80, 313/80, -15),
      (127/80, 127/80, -15)] := by
  unfold rectEmitted rectPositions rectFilled
  rw [rectScenario_loop, rectScenario_npasses]
  norm_num [rectRt, corners5, Int.toNat_ofNat, List.filter_append]

set_option maxRecDepth 4000 in
set_option maxHeartbeats 4000000 in
theorem rectScenario_xvals :
    axisVals .X rectScenarioProg = [397/250, 38413/1000, 38413/1000, 397/250, 397/250, 397/250, 38413/1000, 38413/1000, 397/250, 397/250, 397/250, 38413/1000, 38413/1000, 397/250, 397/250, 397/250, 38413/1000, 38413/1000, 397/250, 397/250, 397/250, 38413/1000, 38413/1000, 397/250, 397/250, 397/250, 38413/1000, 38413/1000, 397/250, 397/250, 397/250, 38413/1000, 38413/1000, 397/250, 397/250, 397/250, 38413/1000, 38413/1000, 397/250, 397/250, 397/250, 38413/1000, 38413/1000, 397/250, 397/250, 397/250, 38413/1000, 38413/1000, 397/250, 397/250, 397/250, 38413/1000, 38413/1000, 397/250, 397/250, 397/250, 38413/1000, 38413/1000, 397/250, 397/250, 397/250, 38413/1000, 38413/1000, 397/250, 397/250, 397/250, 38413/1000, 38413/1000, 397/250, 397/250, 397/250, 38413/1000, 38413/1000, 397/250, 397/250, 397/250, 38413/1000, 38413/1000, 397/250, 397/250, 397/250, 38413/1000, 38413/1000, 397/250, 397/250, 397/250, 38413/1000, 38413/1000, 397/250, 397/250, 397/250, 38413/1000, 38413/1000, 397/250, 397/250, 397/250, 38413/1000, 38413/1000, 397/250, 397/250] := by
  unfold rectScenarioProg rectCutProg
  rw [(axisVals_flatMap_rectLineTokens _).1, rectScenario_rows]
  norm_num [toStrVal_xa, toStrVal_xb, toStrVal_yd, toStrVal_dec3, Dec3]

set_option maxRecDepth 4000 in
set_option maxHeartbeats 4000000 in
theorem rectScenario_yvals :
    axisVals .Y rectScenarioProg = [397/250, 397/250, 3913/1000, 3913/1000, 397/250, 397/250, 397/250, 3913/1000, 3913/1000, 397/250, 397/250, 397/250, 3913/1000, 3913/1000, 397/250, 397/250, 397/250, 3913/1000, 3913/1000, 397/250, 397/250, 397/250, 3913/1000, 3913/1000, 397/250, 397/250, 397/250, 3913/1000, 3913/1000, 397/250, 397/250, 397/250, 3913/1000, 3913/1000, 397/250, 397/250, 397/250, 3913/1000, 3913/1000, 397/250, 397/250, 397/250, 3913/1000, 3913/1000, 397/250, 397/250, 397/250, 3913/1000, 3913/1000, 397/250, 397/250, 397/250, 3913/1000, 3913/1000, 397/250, 397/250, 397/250, 3913/1000, 3913/1000, 397/250, 397/250, 397/250, 3913/1000, 3913/1000, 397/250, 397/250, 397/250, 3913/1000, 3913/1000, 397/250, 397/250, 397/250, 3913/1000, 3913/1000, 397/250, 397/250, 397/250, 3913/1000, 3913/1000, 397/250, 397/250, 397/250, 3913/1000, 3913/1000, 397/250, 397/250, 397/250, 3913/1000, 3913/1000, 397/250, 397/250, 397/250, 3913/1000, 3913/1000, 397/250, 397/250, 397/250, 3913/1000, 3913/1000, 397/250] := by
  unfold rectScenarioProg rectCutProg
  rw [(axisVals_flatMap_rectLineTokens _).2.1, rectScenario_rows]
  norm_num [toStrVal_xa, toStrVal_xb, toStrVal_yd, toStrVal_dec3, Dec3]

set_option maxRecDepth 4000 in
set_option maxHeartbeats 4000000 in
theorem rectScenario_zvals :
    axisVals .Z rectScenarioProg = [-3/4, -3/4, -3/4, -3/4, -3/4, -3/2, -3/2, -3/2, -3/2, -3/2, -9/4, -9/4, -9/4, -9/4, -9/4, -3, -3, -3, -3, -3, -15/4, -15/4, -15/4, -15/4, -15/4, -9/2, -9/2, -9/2, -9/2, -9/2, -21/4, -21/4, -21/4, -21/4, -21/4, -6, -6, -6, -6, -6, -27/4, -27/4, -27/4, -27/4, -27/4, -15/2, -15/2, -15/2, -15/2, -15/2, -33/4, -33/4, -33/4, -33/4, -33/4, -9, -9, -9, -9, -9, -39/4, -39/4, -39/4, -39/4, -39/4, -21/2, -21/2, -21/2, -21/2, -21/2, -45/4, -45/4, -45/4, -45/4, -45/4, -12, -12, -12, -12, -12, -51/4, -51/4, -51/4, -51/4, -51/4, -27/2, -27/2, -27/2, -27/2, -27/2, -57/4, -57/4, -57/4, -57/4, -57/4, -15, -15, -15, -15, -15] := by
  unfold rectScenarioProg rectCutProg
  rw [(axisVals_flatMap_rectLineTokens _).2.2, rectScenario_rows]
  norm_num [toStrVal_xa, toStrVal_xb, toStrVal_yd, toStrVal_dec3, Dec3]

set_option maxRecDepth 4000 in
set_option maxHeartbeats 4000000 in
theorem rectScenario_extents :
    Extents rectScenarioProg = ⟨397/250, 397/250, -15, 38413/1000, 3913/1000, -3/4⟩ := by
  unfold Extents
  rw [rectScenario_xvals, rectScenario_yvals, rectScenario_zvals]
  norm_num [extScan, extStep, eLT, eGT, eClean]

/-- C2 counterexample: with `operation=Pocket` the computed cutting-move
extents (origin moves ignored) are the tool-radius-inset values
`x_min ≈ 1.5875`, `x_max ≈ 38.4125`, `y_max ≈ 3.9125` — nowhere near the
claimed `[-1.5875, -1.5875, 41.5875, 7.0875]`, which are the Profile
(outset) numbers. -/
theorem rect_scenario_pocket_counterexample :
    (Extents rectScenarioProg).x_min = 397/250 ∧
    (Extents rectScenarioProg).x_max = 38413/1000 ∧
    (Extents rectScenarioProg).y_max = 3913/1000 ∧
    ¬|(397/250 : ℚ) - (-(127/80))| ≤ 1/10 ∧
    ¬|(38413/1000 : ℚ) - 3327/80| ≤ 1/10 ∧
    ¬|(3913/1000 : ℚ) - 567/80| ≤ 1/10 := by
  refine ⟨by rw [rectScenario_extents], by rw [rectScenario_extents],
    by rw [rectScenario_extents], ?_, ?_, ?_⟩
  · rw [not_le, show |(397/250 : ℚ) - (-(127/80))| = 6351/2000 by
      rw [abs_of_pos] <;> norm_num]
    norm_num
  · rw [not_le]
    rw [show |(38413/1000 : ℚ) - 3327/80| = 6349/2000 by
      rw [abs_of_neg] <;> norm_num]
    norm_num
  · rw [not_le]
    rw [show |(3913/1000 : ℚ) - 567/80| = 6349/2000 by
      rw [abs_of_neg] <;> norm_num]
    norm_num

/-- C2 (amended): the scenario's Pocket program has cutting-move XY extents
approximately `[1.5875, 1.5875, 38.4125, 3.9125]` (each reported bound
within the 3-decimal formatting tolerance of the exact inset rectangle) and
its minimum Z is exactly `-15`.  The claimed `[-1.5875, -1.5875, 41.5875,
7.0875]` are the `operation=Profile` extents. -/
theorem rect_scenario_extents_amended :
    Extents rectScenarioProg = ⟨397/250, 397/250, -15, 38413/1000, 3913/1000, -3/4⟩ ∧
    |(397/250 : ℚ) - 127/80| ≤ 1/1000 ∧
    |(38413/1000 : ℚ) - 3073/80| ≤ 1/1000 ∧
    |(3913/1000 : ℚ) - 313/80| ≤ 1/1000 ∧
    (Extents rectScenarioProg).z_min = -15 := by
  refine ⟨rectScenario_extents, ?_, ?_, ?_, by rw [rectScenario_extents]⟩
  · rw [show |(397/250 : ℚ) - 127/80| = 1/2000 by rw [abs_of_pos] <;> norm_num]
    norm_num
  · rw [show |(38413/1000 : ℚ) - 3073/80| = 1/2000 by rw [abs_of_pos] <;> norm_num]
    norm_num
  · rw [show |(3913/1000 : ℚ) - 313/80| = 1/2000 by rw [abs_of_pos] <;> norm_num]
    norm_num

/-! ## C9 -/

theorem rotLine_canonical (c s cx cy : ℚ) (l : RLine) (h : Canonical l) :
    rotLine c s cx cy l = rotLineSpec c s cx cy l := by
  obtain ⟨ox, oy, oz, og, htoks⟩ := h
  rcases l with ⟨g, ts⟩
  simp only at htoks
  subst htoks
  rcases ox with _ | xv <;> rcases oy with _ | yv <;> rcases oz with _ | zv <;>
    rcases og with _ | fv <;> rcases g with _ | _ <;>
    simp [rotLine, rotLineSpec, canonToks, optTok, leadToks, tailToks,
      parseXYZF, parseX, parseY, parseZ, parseF, findXv, findYv, findZv, findFv,
      isXYZ, rval, List.find?, List.takeWhile, List.dropWhile]

/-- C9 (amended): on lines whose words are in the canonical X, Y, Z, F
order, `Rotate` with an explicit center behaves exactly as the spec
describes (rotation about the center, missing axes contribute 0 but are not
emitted, Z and F pass through, non-G0/G1 and coordinate-free lines are
untouched); with no explicit center it rotates about the center computed by
`Center()` (which the Extents `elif` slip can displace from the true
bounding-box center).  Lines with out-of-order words have the words after
the matched prefix dropped (see the counterexample). -/
theorem rotate_canonical_spec (c s cx cy : ℚ) (prog : List RLine)
    (h : ∀ l ∈ prog, Canonical l) :
    Rotate c s (some cx) (some cy) prog = prog.map (rotLineSpec c s cx cy) ∧
    Rotate c s none none prog =
      Rotate c s (some (rCenter prog).1) (some (rCenter prog).2.1) prog := by
  constructor
  · unfold Rotate
    simp only [Option.getD_some]
    exact List.map_congr_left fun l hl => rotLine_canonical c s cx cy l (h l hl)
  · rfl

/-- Witness for C9 on the canonical line `G1 X1 Y2 Z3 F4` rotated a quarter
turn (`cos=0`, `sin=1`) about `(5, 7)`. -/
theorem rotate_canonical_spec_witness :
    Rotate 0 1 (some 5) (some 7) [⟨true, [.x 1, .y 2, .z 3, .f 4]⟩] =
      [⟨true, [.x 1, .y 2, .z 3, .f 4]⟩].map (rotLineSpec 0 1 5 7) := by
  exact (rotate_canonical_spec 0 1 5 7 [⟨true, [.x 1, .y 2, .z 3, .f 4]⟩]
    (by
      intro l hl
      rw [List.mem_singleton] at hl
      subst hl
      exact ⟨some 1, some 2, some 3, some 4, rfl⟩)).1

/-- C9 counterexample: rotating `G1 X1 F100 Z-2` by 0 degrees about (0,0)
drops the trailing `Z-2` (the regex Z group precedes its F group, so a Z
after an F is outside the match), contradicting "Z and F tokens on rotated
lines pass through unchanged"; and on `G1 X5 Y2 / G1 X3 Y1` the default
rotation center `Center()` is `3/2`, not the bounding-box center `4`. -/
theorem rotate_counterexample :
    Rotate 1 0 (some 0) (some 0) [rotCexLine] = [⟨true, [.x 1, .f 100]⟩] ∧
    RTok.z (-2) ∈ rotCexLine.toks ∧
    RTok.z (-2) ∉ (⟨true, [RTok.x 1, RTok.f 100]⟩ : RLine).toks ∧
    (rCenter rotCexProg).1 = 3/2 ∧
    bboxCenterX rotCexProg = 4 ∧
    (3/2 : ℚ) ≠ 4 := by
  have hx : axisVals .X (progTokens rotCexProg) = [5, 3] := by
    simp [axisVals, progTokens, rotCexProg, rTok2Tok]
  have hy : axisVals .Y (progTokens rotCexProg) = [2, 1] := by
    simp [axisVals, progTokens, rotCexProg, rTok2Tok]
  have hz : axisVals .Z (progTokens rotCexProg) = [] := by
    simp [axisVals, progTokens, rotCexProg, rTok2Tok]
  refine ⟨?_, by simp [rotCexLine], by simp, ?_, ?_, by norm_num⟩
  · unfold Rotate
    simp only [Option.getD_some, List.map_cons, List.map_nil]
    rw [show rotLine 1 0 0 0 rotCexLine = ⟨true, [.x 1, .f 100]⟩ from ?_]
    unfold rotLine rotCexLine
    norm_num [tailToks, leadToks, parseXYZF, parseX, parseY, parseZ, parseF,
      isXYZ, optTok, rotXY, toStrVal]
  · unfold rCenter Center Extents
    rw [hx, hy, hz]
    norm_num [extScan, extStep, eLT, eGT, eClean]
  · unfold bboxCenterX
    rw [hx]
    norm_num [List.min?, List.max?]

end GCodeUtilities
